import Mathlib

/-!
Verification of the Sonarr_Kodi library reconciliation engine against its
natural-language specification.  The Python sources are shallowly embedded:
pure data classes become structures, methods become functions, and the
side-effecting pipeline (RPC calls, file system polling, persisted playback
state) is modelled by explicit call traces and explicit state passing.
-/

namespace SonarrKodi

/-! ## Data model (src/src/kodi/models.py) -/

/-- WatchedState dataclass: play count, timestamps and resume position of a
library entry.  Timestamps are kept abstract as optional strings; the resume
position is an integer pair as parsed by the RPC client. -/
structure WatchedState where
  play_count : Option Int
  date_added : Option String
  last_played : Option String
  resume_position : Int
  resume_total : Int
deriving Repr, DecidableEq

/-- EpisodeDetails dataclass.  In the source it is a frozen dataclass whose
fields carry compare/hash flags: only show_id, season and episode participate
in equality and hashing. -/
structure EpisodeDetails where
  episode_id : Int
  show_id : Int
  file : String
  show_title : String
  episode_title : String
  season : Int
  episode : Int
  watched_state : WatchedState
deriving Repr, DecidableEq

/-- The identity tuple of an episode record: exactly the fields marked
compare=True in the dataclass. -/
def EpisodeDetails.idKey (e : EpisodeDetails) : Int × Int × Int :=
  (e.show_id, e.season, e.episode)

/-- Generated dataclass equality: compares only the fields flagged
compare=True, i.e. show_id, season and episode. -/
def epEq (a b : EpisodeDetails) : Bool :=
  a.show_id == b.show_id && a.season == b.season && a.episode == b.episode

/-- Generated dataclass hash: the hash of the tuple of fields flagged
hash=True, i.e. (show_id, season, episode).  The concrete mixing constants
stand in for the Python tuple hash; what matters is that the hash is a
function of exactly these three fields. -/
def epHash (e : EpisodeDetails) : Int :=
  e.show_id * 1000003 + e.season * 1009 + e.episode

/-- Python membership test `x in xs` on a list of EpisodeDetails: it uses the
dataclass equality, hence the identity tuple only. -/
def epMem (e : EpisodeDetails) (l : List EpisodeDetails) : Bool :=
  l.any (fun y => epEq y e)

/-- Python str.lower, for the ASCII strings compared in the embedded code:
character-wise lower-casing. -/
def pyLower (s : String) : String :=
  String.mk (s.toList.map Char.toLower)

/-! ## RPC response model (src/src/kodi/models.py, KodiResponse) -/

/-- A JSON value as carried in the result field of a Kodi JSON-RPC
response. -/
inductive JsonVal where
  | null
  | bool (b : Bool)
  | num (n : Int)
  | str (s : String)
  | arr (items : List JsonVal)
  | obj (entries : List (String × JsonVal))

/-- KodiResponseError dataclass, reduced to the fields relevant for
validity checking (only its presence matters to is_valid). -/
structure KodiResponseError where
  code : Option Int
  message : Option String

/-- KodiResponse dataclass. -/
structure KodiResponse where
  req_id : Int
  jsonrpc : String
  result : Option JsonVal
  error : Option KodiResponseError

/-- Python truthiness of an optional string argument: None and the empty
string are falsy, any other string is truthy.  This models the source line
`if expected_str:`. -/
def pyTruthyStr : Option String → Bool
  | none => false
  | some s => s != ""

/-- KodiResponse.is_valid, translated clause by clause from the source:
reject on error or missing result; a list result is valid when non-empty; a
string result is valid when equal to the expected string; a dict result is
valid when it contains the expected key if a truthy expected string was
given, else when non-empty; anything else is invalid. -/
def KodiResponse.is_valid (r : KodiResponse) (expected : Option String) : Bool :=
  if r.error.isSome || r.result.isNone then false
  else
    match r.result with
    | some (.arr items) => !items.isEmpty
    | some (.str s) =>
      match expected with
      | some e => s == e
      | none => false
    | some (.obj entries) =>
      if pyTruthyStr expected then entries.any (fun kv => kv.fst == expected.getD "")
      else !entries.isEmpty
    | _ => false

/-- The validity rule exactly as the specification words it: no error, a
non-null result whose shape matches the expectation — a string equal to the
expected string, a non-empty list, or a non-empty map containing the
expected key when one is given. -/
def claimValidC7 (r : KodiResponse) (expected : Option String) : Bool :=
  r.error.isNone &&
    match r.result with
    | some (.str s) => expected == some s
    | some (.arr items) => !items.isEmpty
    | some (.obj entries) =>
      (!entries.isEmpty) &&
        (match expected with
         | some k => entries.any (fun kv => kv.fst == k)
         | none => true)
    | _ => false

/-! ## Metadata wait gate (src/src/event_handler/event_handler.py, _wait_for_nfos)

The polling loop is discretized: one loop iteration per second (the source
sleeps 1s per iteration), and `fs t p` tells whether path `p` exists on disk
at second `t`.  The source computes `max_sec = nfo_timeout_minuets * len(nfos) * 60`
and, inside the per-file loop, returns False on `elapsed >= max_sec` — but
only after evaluating the log argument `", ".join(nfos)`, which joins
PosixPath objects and therefore raises TypeError before the return
executes.  The embedding records that outcome explicitly. -/

/-- Outcome of one run of the wait gate.  success carries the elapsed
seconds of the final iteration; typeError is the exception raised inside the
timeout branch while building the log message; nameError is the crash on an
empty nfo list (the loop never runs, so the later use of elapsed is an
unbound name); fuelOut marks non-termination of the model loop. -/
inductive WaitOutcome where
  | success (elapsedSec : Nat)
  | typeError (elapsedSec : Nat)
  | nameError
  | fuelOut
deriving Repr, DecidableEq

/-- One sweep of the inner for-loop over the nfo list at elapsed time t:
skip files already found, record files that now exist, and on the first
still-missing file once t has reached max_sec, crash (none) as the source
does in its timeout branch. -/
def nfoSweep (fs : Nat → String → Bool) (t maxSec : Nat) :
    List String → List String → Option (List String)
  | [], found => some found
  | f :: rest, found =>
    if found.contains f then nfoSweep fs t maxSec rest found
    else if fs t f then nfoSweep fs t maxSec rest (found ++ [f])
    else if maxSec ≤ t then none
    else nfoSweep fs t maxSec rest found

/-- The while-loop of _wait_for_nfos: sweep, then either finish
successfully when every nfo has been found, or sleep one second and retry.
Fuel bounds the model recursion; the caller passes enough fuel for every
terminating run of the source loop. -/
def waitLoop (fs : Nat → String → Bool) (nfos : List String) (maxSec : Nat) :
    Nat → Nat → List String → WaitOutcome
  | 0, _, _ => .fuelOut
  | fuel + 1, t, found =>
    match nfoSweep fs t maxSec nfos found with
    | none => .typeError t
    | some found2 =>
      if nfos.length ≤ found2.length then .success t
      else waitLoop fs nfos maxSec fuel (t + 1) found2

/-- _wait_for_nfos.  The source never reaches a `return False`: its timeout
branch raises TypeError while formatting the log message, and an empty nfo
list would crash after the loop on the unbound elapsed variable. -/
def wait_for_nfos (fs : Nat → String → Bool) (timeoutMinutes : Nat)
    (nfos : List String) : WaitOutcome :=
  if nfos.isEmpty then .nameError
  else
    let maxSec := timeoutMinutes * nfos.length * 60
    waitLoop fs nfos maxSec (maxSec + 2) 0 []

/-! ## Host pool scanning (src/src/kodi/library_manager.py)

A host is modelled by its name, its is_playing flag and the outcome of its
scan RPC on each retry pass.  The scan loop of scan_directory and full_scan
is identical in the source; both are embedded on top of the same pass and
round functions, and the pre/post library query results are inputs. -/

/-- Behaviour of one pooled Kodi host across retry passes: scanOk k is the
truthiness of the scan call on pass number k. -/
structure HostModel where
  name : String
  is_playing : Bool
  scanOk : Nat → Bool

/-- Observable step of the scan loop. -/
inductive ScanEvent where
  | attempt (host : String) (ok : Bool)
  | skip (host : String)
  | sleep5
deriving Repr, DecidableEq

/-- One pass of the for-loop over the host list on pass k: optionally skip
active hosts, otherwise invoke the scan and stop at the first success. -/
def scanPass (skip_active : Bool) (k : Nat) : List HostModel → List ScanEvent × Bool
  | [] => ([], false)
  | h :: rest =>
    if skip_active && h.is_playing then
      let p := scanPass skip_active k rest
      (.skip h.name :: p.1, p.2)
    else if h.scanOk k then ([.attempt h.name true], true)
    else
      let p := scanPass skip_active k rest
      (.attempt h.name false :: p.1, p.2)

/-- The unbounded while-loop: repeat passes, sleeping 5 seconds after every
fully failed pass, until one host succeeds.  none means the loop has not
returned within the given fuel (the source loop is genuinely unbounded). -/
def scanRounds (hosts : List HostModel) (skip_active : Bool) : Nat → Nat → Option (List ScanEvent)
  | 0, _ => none
  | fuel + 1, k =>
    let p := scanPass skip_active k hosts
    if p.2 then some p.1
    else
      match scanRounds hosts skip_active fuel (k + 1) with
      | none => none
      | some es => some (p.1 ++ .sleep5 :: es)

/-- The list comprehension `[x for x in after if x not in before]` shared by
scan_directory and full_scan: membership uses dataclass equality, i.e. the
identity tuple. -/
def newEpisodes (before after : List EpisodeDetails) : List EpisodeDetails :=
  after.filter (fun x => !epMem x before)

/-- LibraryManager.scan_directory: query the directory, loop until some host
scans it, query again, return the difference.  qBefore and qAfter are the
results of the two get_episodes_by_dir queries. -/
def scan_directory (hosts : List HostModel) (skip_active : Bool) (fuel : Nat)
    (qBefore qAfter : List EpisodeDetails) :
    Option (List ScanEvent × List EpisodeDetails) :=
  match scanRounds hosts skip_active fuel 0 with
  | none => none
  | some es => some (es, newEpisodes qBefore qAfter)

/-- LibraryManager.full_scan: identical loop over full_video_scan, with the
two _get_all_episodes query results as inputs. -/
def full_scan (hosts : List HostModel) (skip_active : Bool) (fuel : Nat)
    (qBefore qAfter : List EpisodeDetails) :
    Option (List ScanEvent × List EpisodeDetails) :=
  match scanRounds hosts skip_active fuel 0 with
  | none => none
  | some es => some (es, newEpisodes qBefore qAfter)

/-! ## Playback interruption (src/src/kodi/library_manager.py)

stop_playback and start_playback are embedded with the persisted pickle
store as explicit state (Option = whether the file exists) and an event
trace of the player RPCs.  Each active player is paired with the item
reported by get_player_item for it; is_paused, player_percent and
start_episode are per-host behaviour functions, modelled from the spec for
the client operations that only the callers of this module exercise. -/

/-- PlayerItem dataclass. -/
structure PlayerItem where
  item_id : Int
  label : String
  type : String
deriving Repr, DecidableEq

/-- An active player together with the item get_player_item returns. -/
structure ActivePlayer where
  player_id : Int
  item : PlayerItem
deriving Repr, DecidableEq

/-- Per-host playback behaviour: pausedOf and percentOf give the
is_paused / player_percent answers per player id, and startEp gives the
player returned by start_episode for an episode id and resume position
(none when playback fails to start). -/
structure PlayHost where
  name : String
  players : List ActivePlayer
  pausedOf : Int → Bool
  percentOf : Int → Int
  startEp : Int → Int → Option Int

/-- StoppedEpisode dataclass: the persisted playback-interruption record. -/
structure StoppedEpisode where
  episode : EpisodeDetails
  host_name : String
  position : Int
  paused : Bool
deriving Repr, DecidableEq

/-- Observable player-control step. -/
inductive PlayEvent where
  | stopPlayer (host : String) (player_id : Int)
  | serializeRecords (recs : List StoppedEpisode)
  | sleep2
  | notifyForced (host : String) (title msg : String)
  | startEpisode (host : String) (episode_id position : Int)
  | pausePlayer (host : String) (player_id : Int)
deriving Repr, DecidableEq

/-- The inner player loop of stop_playback on one host: skip items that are
not episodes, skip other episodes, and stop every player found playing the
given episode, capturing its position and paused state. -/
def playerStops (episode : EpisodeDetails) (h : PlayHost) :
    List ActivePlayer → List StoppedEpisode × List PlayEvent
  | [] => ([], [])
  | p :: rest =>
    if pyLower p.item.type != "episode" then playerStops episode h rest
    else if p.item.item_id != episode.episode_id then playerStops episode h rest
    else
      let t := playerStops episode h rest
      (⟨episode, h.name, h.percentOf p.player_id, h.pausedOf p.player_id⟩ :: t.1,
        .stopPlayer h.name p.player_id :: t.2)

/-- The host loop of stop_playback. -/
def collectStops (episode : EpisodeDetails) : List PlayHost → List StoppedEpisode × List PlayEvent
  | [] => ([], [])
  | h :: rest =>
    let a := playerStops episode h h.players
    let b := collectStops episode rest
    (a.1 ++ b.1, a.2 ++ b.2)

/-- The notification loop at the end of stop_playback: every host receives
one forced notification per stopped record bearing its name. -/
def stopNotifications (reason : String) (stopped : List StoppedEpisode) :
    List PlayHost → List PlayEvent
  | [] => []
  | h :: rest =>
    (stopped.filter (fun r => r.host_name == h.name)).map
        (fun _ => .notifyForced h.name "Sonarr - Stopped Playback" reason)
      ++ stopNotifications reason stopped rest

/-- LibraryManager.stop_playback: stop matching players everywhere, return
early if nothing was stopped, optionally persist the records (overwriting
the store), sleep 2 seconds, then send the forced notifications. -/
def stop_playback (hosts : List PlayHost) (store : Option (List StoppedEpisode))
    (episode : EpisodeDetails) (reason : String) (store_result : Bool) :
    Option (List StoppedEpisode) × List PlayEvent :=
  let c := collectStops episode hosts
  if c.1.isEmpty then (store, c.2)
  else
    let withSer :=
      if store_result then (some c.1, c.2 ++ [.serializeRecords c.1]) else (store, c.2)
    (withSer.1, withSer.2 ++ .sleep2 :: stopNotifications reason c.1 hosts)

/-- The record loop of start_playback on one host: skip records for other
hosts or other episodes (dataclass equality, identity tuple), reopen the
player at the saved position, and re-apply the paused flag when the player
started. -/
def startOnHost (episode : EpisodeDetails) (h : PlayHost) :
    List StoppedEpisode → List PlayEvent
  | [] => []
  | r :: rest =>
    if r.host_name != h.name then startOnHost episode h rest
    else if !(epEq r.episode episode) then startOnHost episode h rest
    else
      (.startEpisode h.name episode.episode_id r.position ::
        (match h.startEp episode.episode_id r.position with
         | some pid => if r.paused then [.pausePlayer h.name pid] else []
         | none => [])) ++ startOnHost episode h rest

/-- The host loop of start_playback. -/
def startMatches (episode : EpisodeDetails) (recs : List StoppedEpisode) :
    List PlayHost → List PlayEvent
  | [] => []
  | h :: rest => startOnHost episode h recs ++ startMatches episode recs rest

/-- LibraryManager.start_playback: do nothing when the pickle file does not
exist; otherwise _deserialize reads the records and deletes the file (the
store is consumed even when no record matches), then every matching record
is restarted. -/
def start_playback (hosts : List PlayHost) (store : Option (List StoppedEpisode))
    (episode : EpisodeDetails) : Option (List StoppedEpisode) × List PlayEvent :=
  match store with
  | none => (none, [])
  | some recs => (none, startMatches episode recs hosts)

/-! ## Event handlers (src/src/event_handler/event_handler.py)

Handlers are embedded as functions producing the trace of LibraryManager
calls they make, plus a crashed flag for an unhandled exception.  The
library results a handler branches on (show_exists, scan results, episode
queries, removal success) are inputs bundled in KodiBehavior. -/

/-- The library and notification configuration fields the embedded handlers
read (src/src/config/models.py). -/
structure LibraryCfg where
  clean_after_update : Bool
  skip_active : Bool
  full_scan_fallback : Bool
  wait_for_nfo : Bool
  nfo_timeout_minuets : Nat
deriving Repr, DecidableEq

structure NotificationsCfg where
  on_download_new : Bool
  on_delete : Bool
deriving Repr, DecidableEq

structure Config where
  library : LibraryCfg
  notifications : NotificationsCfg
deriving Repr, DecidableEq

/-- The Sonarr environment fields the embedded handlers read. -/
structure SonarrEnv where
  episode_file_path : String
  series_path : String
  episode_file_delete_reason : String
deriving Repr, DecidableEq

/-- PosixPath(p).with_suffix(".nfo"): drop the extension of the final path
component, if any, and append .nfo. -/
def withSuffixNfo (p : String) : String :=
  let cs := p.toList
  let rev := cs.reverse
  match rev.findIdx? (· = '.'), rev.findIdx? (· = '/') with
  | some d, some s =>
    if d < s then String.mk (cs.take (cs.length - d - 1)) ++ ".nfo" else p ++ ".nfo"
  | some d, none => String.mk (cs.take (cs.length - d - 1)) ++ ".nfo"
  | none, _ => p ++ ".nfo"

/-- PosixPath(dir).joinpath(file). -/
def joinPath (dir file : String) : String :=
  if dir.endsWith "/" then dir ++ file else dir ++ "/" ++ file

/-- A LibraryManager call as observed from a handler. -/
inductive KodiCall where
  | show_exists (dir : String)
  | full_scan
  | scan_directory (dir : String)
  | clean_library
  | update_guis
  | notify (title : String) (episode : EpisodeDetails)
  | get_episodes_by_file (path : String)
  | stop_playback (episode_id : Int) (reason : String)
  | remove_episode (episode_id : Int)
deriving Repr, DecidableEq

/-- The LibraryManager results a handler branches on: whether show_exists
found the show, the new-episode lists produced by scan_directory and
full_scan, the per-path get_episodes_by_file results, and per-episode-id
removal success. -/
structure KodiBehavior where
  showExistsRes : Bool
  scanDirRes : List EpisodeDetails
  fullScanRes : List EpisodeDetails
  epsByFileRes : String → List EpisodeDetails
  removeOk : Int → Bool

/-- Result of a handler run: its LibraryManager call trace and whether an
unhandled exception escaped it. -/
structure HandlerResult where
  calls : List KodiCall
  crashed : Bool
deriving Repr, DecidableEq

/-- True for the calls that mutate the library, refresh GUIs or notify. -/
def KodiCall.isMutationOrNotify : KodiCall → Bool
  | .remove_episode _ => true
  | .clean_library => true
  | .update_guis => true
  | .notify _ _ => true
  | .full_scan => true
  | .scan_directory _ => true
  | _ => false

/-- EventHandler.download_new after a passed (or disabled) NFO gate: full
scan for an unknown show, else directory scan with optional full-scan
fallback; optional clean; early return when nothing new was scanned; GUI
update; notifications unless disabled. -/
def downloadNewBody (cfg : Config) (env : SonarrEnv) (kodi : KodiBehavior) : HandlerResult :=
  let scanned : List KodiCall × List EpisodeDetails :=
    if !kodi.showExistsRes then
      ([.show_exists env.series_path, .full_scan], kodi.fullScanRes)
    else
      if kodi.scanDirRes.isEmpty && cfg.library.full_scan_fallback then
        ([.show_exists env.series_path, .scan_directory env.series_path, .full_scan],
          kodi.fullScanRes)
      else
        ([.show_exists env.series_path, .scan_directory env.series_path], kodi.scanDirRes)
  let calls2 := scanned.1 ++ (if cfg.library.clean_after_update then [.clean_library] else [])
  if scanned.2.isEmpty then { calls := calls2, crashed := false }
  else
    let calls3 := calls2 ++ [.update_guis]
    if !cfg.notifications.on_download_new then { calls := calls3, crashed := false }
    else
      { calls := calls3 ++
          scanned.2.map (fun e => .notify "Sonarr - Downloaded New Episode" e),
        crashed := false }

/-- EventHandler.download_new.  When wait_for_nfo is enabled, the NFO gate
runs first; a successful gate continues into the body.  The gate has no
returning failure path: its timeout and empty-list branches raise, which
aborts the handler with the exception (the source line that would return
after a False gate is unreachable). -/
def download_new (cfg : Config) (env : SonarrEnv) (fs : Nat → String → Bool)
    (kodi : KodiBehavior) : HandlerResult :=
  if cfg.library.wait_for_nfo then
    match wait_for_nfos fs cfg.library.nfo_timeout_minuets
        [withSuffixNfo env.episode_file_path, joinPath env.series_path "tvshow.nfo"] with
    | .success _ => downloadNewBody cfg env kodi
    | .typeError _ => { calls := [], crashed := true }
    | .nameError => { calls := [], crashed := true }
    | .fuelOut => { calls := [], crashed := true }
  else downloadNewBody cfg env kodi

/-- EventHandler.episode_delete: when the delete reason is "upgrade"
(case-insensitively), only stop playback of the episodes at the deleted
file and return; otherwise stop, remove, optionally clean, refresh GUIs and
notify per removed episode. -/
def episode_delete (cfg : Config) (env : SonarrEnv) (kodi : KodiBehavior) : HandlerResult :=
  let eps := kodi.epsByFileRes env.episode_file_path
  if pyLower env.episode_file_delete_reason == "upgrade" then
    { calls := .get_episodes_by_file env.episode_file_path ::
        eps.map (fun e => .stop_playback e.episode_id "Processing Upgrade. Please Wait..."),
      crashed := false }
  else
    let removed := eps.filter (fun e => kodi.removeOk e.episode_id)
    let calls1 := .get_episodes_by_file env.episode_file_path ::
      (eps.map (fun e =>
        [KodiCall.stop_playback e.episode_id "Deleted Episode",
         KodiCall.remove_episode e.episode_id])).flatten
    let calls2 := calls1 ++
      (if removed.isEmpty && !cfg.library.clean_after_update then [.clean_library] else [])
    let calls3 := calls2 ++
      (if cfg.library.clean_after_update then [.clean_library] else [])
    let calls4 := calls3 ++ [.update_guis]
    if !cfg.notifications.on_delete then { calls := calls4, crashed := false }
    else
      { calls := calls4 ++ removed.map (fun e => .notify "Sonarr - Deleted Episode" e),
        crashed := false }

/-! ## Pool construction (src/src/kodi/library_manager.py, __init__) and
process entry (src/sonarr_kodi.py, main) -/

/-- A configured endpoint as seen by pool construction: enabled flag,
liveness probe result and priority. -/
structure HostCfg where
  name : String
  enabled : Bool
  alive : Bool
  priority : Nat
deriving Repr, DecidableEq

/-- The data of a constructed pool member. -/
structure PoolHost where
  name : String
  priority : Nat
deriving Repr, DecidableEq

def mkPoolHost (c : HostCfg) : PoolHost := ⟨c.name, c.priority⟩

/-- LibraryManager.__init__: skip disabled endpoints, probe the rest, and
append each live one to the host list in the order configured. -/
def buildHosts : List HostCfg → List PoolHost
  | [] => []
  | c :: rest =>
    if !c.enabled then buildHosts rest
    else if c.alive then mkPoolHost c :: buildHosts rest
    else buildHosts rest

/-- The Sonarr event kinds dispatched by main. -/
inductive SonarrEvent where
  | on_grab
  | on_download_new
  | on_download_upgrade
  | on_rename
  | on_delete
  | on_series_add
  | on_series_delete
  | on_health_issue
  | on_health_restored
  | on_application_update
  | on_manual_interaction_required
  | on_test
  | unknown
deriving Repr, DecidableEq

/-- Observable outcome of one process invocation: whether a critical-level
message was logged, the process exit status, and which handler, if any, was
dispatched. -/
structure MainOutcome where
  fatalLogged : Bool
  exitCode : Nat
  dispatched : Option SonarrEvent
deriving Repr, DecidableEq

/-- collect_hosts of sonarr_kodi.py: enabled endpoints that answer the
liveness probe, kept in configuration order. -/
def collect_hosts : List HostCfg → List HostCfg
  | [] => []
  | c :: rest =>
    if !c.enabled then collect_hosts rest
    else if c.alive then c :: collect_hosts rest
    else collect_hosts rest

/-- main of sonarr_kodi.py: build the client list; with zero clients log a
critical message and return (a plain return, so the interpreter exits with
status 0); otherwise dispatch the event, with sys.exit(1) only on an
unknown event kind. -/
def mainEntry (cfgs : List HostCfg) (event : SonarrEvent) : MainOutcome :=
  let clients := collect_hosts cfgs
  if clients.isEmpty then { fatalLogged := true, exitCode := 0, dispatched := none }
  else
    match event with
    | .unknown => { fatalLogged := true, exitCode := 1, dispatched := none }
    | e => { fatalLogged := false, exitCode := 0, dispatched := some e }

end SonarrKodi

namespace SonarrKodi

/-! ## Theorems -/

/-! ### Wait-gate lemmas -/

lemma nfoSweep_allFalse_lt (fs : Nat → String → Bool) (hfs : ∀ t p, fs t p = false)
    (t maxSec : Nat) (hlt : ¬ maxSec ≤ t) :
    ∀ l : List String, nfoSweep fs t maxSec l [] = some [] := by
  intro l
  induction l with
  | nil => rfl
  | cons g gs ih => simp [nfoSweep, hfs, hlt, ih]

lemma nfoSweep_allFalse_ge (fs : Nat → String → Bool) (hfs : ∀ t p, fs t p = false)
    (t maxSec : Nat) (hge : maxSec ≤ t) (f : String) (rest : List String) :
    nfoSweep fs t maxSec (f :: rest) [] = none := by
  simp [nfoSweep, hfs, hge]

lemma waitLoop_allFalse (fs : Nat → String → Bool) (hfs : ∀ t p, fs t p = false)
    (nfos : List String) (hne : nfos ≠ []) (maxSec : Nat) :
    ∀ fuel t, t ≤ maxSec → maxSec + 1 ≤ fuel + t →
      waitLoop fs nfos maxSec fuel t [] = .typeError maxSec := by
  intro fuel
  induction fuel with
  | zero =>
    intro t h1 h2
    exact absurd h2 (by omega)
  | succ n ih =>
    intro t h1 h2
    by_cases hge : maxSec ≤ t
    · have ht : t = maxSec := le_antisymm h1 hge
      subst ht
      obtain ⟨f, rest, rfl⟩ : ∃ f rest, nfos = f :: rest := by
        cases nfos with
        | nil => exact absurd rfl hne
        | cons f rest => exact ⟨f, rest, rfl⟩
      simp [waitLoop, nfoSweep_allFalse_ge fs hfs _ _ hge]
    · have hsw := nfoSweep_allFalse_lt fs hfs t maxSec hge nfos
      have hlen : ¬ nfos.length ≤ ([] : List String).length := by
        cases nfos with
        | nil => exact absurd rfl hne
        | cons f rest => simp
      simp only [waitLoop, hsw, if_neg hlen]
      exact ih (t + 1) (by omega) (by omega)

lemma wait_for_nfos_allFalse (fs : Nat → String → Bool) (hfs : ∀ t p, fs t p = false)
    (timeoutMin : Nat) (nfos : List String) (hne : nfos ≠ []) :
    wait_for_nfos fs timeoutMin nfos = .typeError (timeoutMin * nfos.length * 60) := by
  have hempty : nfos.isEmpty = false := by
    cases nfos with
    | nil => exact absurd rfl hne
    | cons f rest => rfl
  show (if nfos.isEmpty then WaitOutcome.nameError
    else
      let maxSec := timeoutMin * nfos.length * 60
      waitLoop fs nfos maxSec (maxSec + 2) 0 []) = _
  rw [hempty]
  simp only [Bool.false_eq_true, if_false]
  exact waitLoop_allFalse fs hfs nfos hne _ (timeoutMin * nfos.length * 60 + 2) 0
    (by omega) (by omega)

/-- C5: code bug in the metadata wait gate.  For every non-empty list of
expected NFO paths none of which ever appears, the gate runs until the
budgeted duration (timeout minutes times file count, in seconds) and then,
instead of logging the missing set and returning failure as its own
annotation and comments promise, raises a TypeError while formatting the
log message (it joins PosixPath objects with a string separator). -/
theorem C5_wait_gate_crashes_on_timeout (fs : Nat → String → Bool) (timeoutMin : Nat)
    (nfos : List String) (hne : nfos ≠ []) (hfs : ∀ t p, fs t p = false) :
    wait_for_nfos fs timeoutMin nfos = .typeError (timeoutMin * nfos.length * 60) :=
  wait_for_nfos_allFalse fs hfs timeoutMin nfos hne

/-- C5 witness: two expected NFO files that never appear, with a one-minute
per-file budget, crash the gate with the TypeError at 120 elapsed
seconds. -/
theorem C5_wait_gate_crashes_on_timeout_witness :
    (["/tv/Show/S01E01.nfo", "/tv/Show/tvshow.nfo"] ≠ ([] : List String)) ∧
      wait_for_nfos (fun _ _ => false) 1 ["/tv/Show/S01E01.nfo", "/tv/Show/tvshow.nfo"] =
        .typeError 120 := by
  refine ⟨by simp, ?_⟩
  exact C5_wait_gate_crashes_on_timeout (fun _ _ => false) 1
    ["/tv/Show/S01E01.nfo", "/tv/Show/tvshow.nfo"] (by simp) (fun _ _ => rfl)

/-! ### C1: download_new when the NFO gate fails -/

/-- C1 counterexample: a download-new event for a brand-new show with
wait_for_nfo enabled, full-scan fallback enabled, notifications disabled,
and NFO files that never appear.  The claim requires a full-scan call; the
handler makes none (its trace is empty) and aborts with the unhandled
TypeError escaping the wait gate. -/
theorem C1_counterexample :
    KodiCall.full_scan ∉
        (download_new ⟨⟨false, false, true, true, 1⟩, ⟨false, false⟩⟩
          ⟨"/tv/NewShow/S01E01.mkv", "/tv/NewShow", ""⟩ (fun _ _ => false)
          ⟨false, [], [], fun _ => [], fun _ => false⟩).calls ∧
      (download_new ⟨⟨false, false, true, true, 1⟩, ⟨false, false⟩⟩
          ⟨"/tv/NewShow/S01E01.mkv", "/tv/NewShow", ""⟩ (fun _ _ => false)
          ⟨false, [], [], fun _ => [], fun _ => false⟩).crashed = true := by
  have h := wait_for_nfos_allFalse (fun _ _ => false) (fun _ _ => rfl) 1
    [withSuffixNfo "/tv/NewShow/S01E01.mkv", joinPath "/tv/NewShow" "tvshow.nfo"] (by simp)
  constructor
  · simp [download_new, h]
  · simp [download_new, h]

/-- C1 (amended): for every configuration with wait_for_nfo enabled and
expected NFO files that never appear, download_new performs no scan call of
any kind (neither directory nor full), sends zero notifications, and does
not handle the failed wait: the TypeError raised inside the gate escapes
the handler, whose trace is empty. -/
theorem C1_nfo_failure_no_scan (cfg : Config) (env : SonarrEnv)
    (fs : Nat → String → Bool) (kodi : KodiBehavior)
    (hw : cfg.library.wait_for_nfo = true) (hfs : ∀ t p, fs t p = false) :
    download_new cfg env fs kodi = ⟨[], true⟩ := by
  have hne : [withSuffixNfo env.episode_file_path, joinPath env.series_path "tvshow.nfo"] ≠
      ([] : List String) := by simp
  have h := wait_for_nfos_allFalse fs hfs cfg.library.nfo_timeout_minuets _ hne
  simp [download_new, hw, h]

/-- C1 witness: the amended statement applied at the concrete inputs of the
counterexample scenario. -/
theorem C1_nfo_failure_no_scan_witness :
    (⟨⟨false, false, true, true, 1⟩, ⟨false, false⟩⟩ : Config).library.wait_for_nfo = true ∧
      download_new ⟨⟨false, false, true, true, 1⟩, ⟨false, false⟩⟩
          ⟨"/tv/NewShow/S01E01.mkv", "/tv/NewShow", ""⟩ (fun _ _ => false)
          ⟨false, [], [], fun _ => [], fun _ => false⟩ = ⟨[], true⟩ := by
  refine ⟨rfl, ?_⟩
  exact C1_nfo_failure_no_scan ⟨⟨false, false, true, true, 1⟩, ⟨false, false⟩⟩
    ⟨"/tv/NewShow/S01E01.mkv", "/tv/NewShow", ""⟩ (fun _ _ => false)
    ⟨false, [], [], fun _ => [], fun _ => false⟩ rfl (fun _ _ => rfl)

/-! ### C4: episode_delete with reason "upgrade" -/

lemma stops_all_nonmutating (eps : List EpisodeDetails) (reason : String) :
    (eps.map (fun e => KodiCall.stop_playback e.episode_id reason)).all
      (fun c => !c.isMutationOrNotify) = true := by
  induction eps with
  | nil => rfl
  | cons e rest ih => simp [KodiCall.isMutationOrNotify, ih]

/-- C4: for every episode-delete event whose delete reason lower-cases to
"upgrade", the handler queries the affected episodes, stops playback of
each (recording for restart) and returns: the trace holds no episode
removal, no clean, no GUI refresh and no notification, and no exception
escapes. -/
theorem C4_upgrade_reason_only_stops_playback (cfg : Config) (env : SonarrEnv)
    (kodi : KodiBehavior) (h : pyLower env.episode_file_delete_reason = "upgrade") :
    episode_delete cfg env kodi =
      ⟨KodiCall.get_episodes_by_file env.episode_file_path ::
        (kodi.epsByFileRes env.episode_file_path).map
          (fun e => .stop_playback e.episode_id "Processing Upgrade. Please Wait..."),
        false⟩ ∧
      (episode_delete cfg env kodi).calls.all (fun c => !c.isMutationOrNotify) = true := by
  have hb : (pyLower env.episode_file_delete_reason == "upgrade") = true :=
    beq_iff_eq.mpr h
  have htrace : episode_delete cfg env kodi =
      ⟨KodiCall.get_episodes_by_file env.episode_file_path ::
        (kodi.epsByFileRes env.episode_file_path).map
          (fun e => .stop_playback e.episode_id "Processing Upgrade. Please Wait..."),
        false⟩ := by
    simp [episode_delete, hb]
  refine ⟨htrace, ?_⟩
  rw [htrace]
  simp only [List.all_cons, Bool.and_eq_true]
  exact ⟨by rfl, stops_all_nonmutating _ _⟩

/-- C4 witness: with clean-after-update and delete notifications both
enabled and two episodes backed by the deleted file, the upgrade-reason
path still only queries and stops playback. -/
theorem C4_upgrade_reason_only_stops_playback_witness :
    pyLower (SonarrEnv.episode_file_delete_reason
        ⟨"/tv/A/S01E01.mkv", "/tv/A", "Upgrade"⟩) = "upgrade" ∧
      episode_delete ⟨⟨true, false, true, false, 1⟩, ⟨true, true⟩⟩
          ⟨"/tv/A/S01E01.mkv", "/tv/A", "Upgrade"⟩
          ⟨true, [], [],
            fun _ => [⟨21, 5, "/tv/A/S01E01.mkv", "A", "Pilot", 1, 1,
              ⟨some 1, none, some "2020-01-01", 0, 0⟩⟩],
            fun _ => true⟩ =
        ⟨[KodiCall.get_episodes_by_file "/tv/A/S01E01.mkv",
          KodiCall.stop_playback 21 "Processing Upgrade. Please Wait..."], false⟩ := by
  refine ⟨by decide, ?_⟩
  exact (C4_upgrade_reason_only_stops_playback ⟨⟨true, false, true, false, 1⟩, ⟨true, true⟩⟩
    ⟨"/tv/A/S01E01.mkv", "/tv/A", "Upgrade"⟩
    ⟨true, [], [],
      fun _ => [⟨21, 5, "/tv/A/S01E01.mkv", "A", "Pilot", 1, 1,
        ⟨some 1, none, some "2020-01-01", 0, 0⟩⟩],
      fun _ => true⟩ (by decide)).1

/-- C6: for any two EpisodeDetails records with the same identity tuple
(show id, season, episode), dataclass equality holds, the hashes agree, any
record tests equal to both or to neither, and list/set membership cannot
distinguish them — no matter how the episode id, file path, titles or
watched state differ. -/
theorem C6_identity_equality (a b : EpisodeDetails) (h : a.idKey = b.idKey) :
    epEq a b = true ∧ epHash a = epHash b ∧
      (∀ c : EpisodeDetails, epEq c a = epEq c b) ∧
      (∀ l : List EpisodeDetails, epMem a l = epMem b l) := by
  obtain ⟨h1, h2, h3⟩ : a.show_id = b.show_id ∧ a.season = b.season ∧ a.episode = b.episode := by
    have := h
    simp only [EpisodeDetails.idKey, Prod.mk.injEq] at this
    exact ⟨this.1, this.2.1, this.2.2⟩
  refine ⟨?_, ?_, ?_, ?_⟩
  · simp [epEq, h1, h2, h3]
  · simp [epHash, h1, h2, h3]
  · intro c
    simp [epEq, h1, h2, h3]
  · intro l
    induction l with
    | nil => rfl
    | cons x xs ih =>
      simp only [epMem, List.any_cons] at ih ⊢
      rw [show epEq x a = epEq x b by simp [epEq, h1, h2, h3], ih]

/-- C6 witness: a record before a rescan and one after it, with a different
numeric episode id, file path, titles and watched state but the same
identity tuple, are equal, hash equal and are indistinguishable by
membership in a library listing. -/
theorem C6_identity_equality_witness :
    (EpisodeDetails.idKey ⟨11, 5, "/tv/a/s01e01.mkv", "A", "Pilot", 1, 1,
        ⟨some 2, some "2020-01-01", some "2020-02-02", 10, 100⟩⟩ =
      EpisodeDetails.idKey ⟨77, 5, "/tv/a/s01e01.v2.mkv", "A (2020)", "Pilot v2", 1, 1,
        ⟨none, none, none, 0, 0⟩⟩) ∧
    epEq ⟨11, 5, "/tv/a/s01e01.mkv", "A", "Pilot", 1, 1,
        ⟨some 2, some "2020-01-01", some "2020-02-02", 10, 100⟩⟩
      ⟨77, 5, "/tv/a/s01e01.v2.mkv", "A (2020)", "Pilot v2", 1, 1,
        ⟨none, none, none, 0, 0⟩⟩ = true ∧
    epHash ⟨11, 5, "/tv/a/s01e01.mkv", "A", "Pilot", 1, 1,
        ⟨some 2, some "2020-01-01", some "2020-02-02", 10, 100⟩⟩ =
      epHash ⟨77, 5, "/tv/a/s01e01.v2.mkv", "A (2020)", "Pilot v2", 1, 1,
        ⟨none, none, none, 0, 0⟩⟩ := by
  refine ⟨rfl, ?_⟩
  have h := C6_identity_equality
    ⟨11, 5, "/tv/a/s01e01.mkv", "A", "Pilot", 1, 1,
      ⟨some 2, some "2020-01-01", some "2020-02-02", 10, 100⟩⟩
    ⟨77, 5, "/tv/a/s01e01.v2.mkv", "A (2020)", "Pilot v2", 1, 1,
      ⟨none, none, none, 0, 0⟩⟩ rfl
  exact ⟨h.1, h.2.1⟩

/-- C7 counterexample: with an empty expected key, is_valid accepts any
non-empty dict result even though it does not contain the expected key,
because the source tests the expected string with Python truthiness; the
validity rule as claimed rejects this response. -/
theorem C7_counterexample :
    KodiResponse.is_valid ⟨1, "2.0", some (.obj [("a", .null)]), none⟩ (some "") = true ∧
    claimValidC7 ⟨1, "2.0", some (.obj [("a", .null)]), none⟩ (some "") = false := by
  constructor <;> rfl

/-- C7 (amended): whenever the expected string is not the empty string, the
source is_valid agrees exactly with the specified validity rule: no error
and a non-null result of matching shape — a string equal to the expected
string, a non-empty list, or a non-empty map containing the expected key
when one is given. -/
theorem C7_is_valid_matches_rule (r : KodiResponse) (expected : Option String)
    (h : expected ≠ some "") :
    r.is_valid expected = claimValidC7 r expected := by
  obtain ⟨id0, rpc0, res0, err0⟩ := r
  cases err0 with
  | some e => simp [KodiResponse.is_valid, claimValidC7]
  | none =>
    cases res0 with
    | none => simp [KodiResponse.is_valid, claimValidC7]
    | some v =>
      cases v with
      | null => simp [KodiResponse.is_valid, claimValidC7]
      | bool b => simp [KodiResponse.is_valid, claimValidC7]
      | num n => simp [KodiResponse.is_valid, claimValidC7]
      | str s =>
        cases expected with
        | none => simp [KodiResponse.is_valid, claimValidC7]
        | some e =>
          simp only [KodiResponse.is_valid, claimValidC7, Option.isSome_none,
            Option.isNone_none, Option.isNone_some, Bool.false_or, Bool.true_and,
            Option.isNone, if_false]
          by_cases hse : s = e
          · subst hse
            simp
          · rw [beq_eq_false_iff_ne.mpr hse]
            have : (some e == some s) = false := by
              apply beq_eq_false_iff_ne.mpr
              intro hc
              exact hse (Option.some_inj.mp hc).symm
            simp [this]
      | arr items => simp [KodiResponse.is_valid, claimValidC7]
      | obj entries =>
        cases expected with
        | none =>
          simp [KodiResponse.is_valid, claimValidC7, pyTruthyStr]
        | some k =>
          have hk : k ≠ "" := fun hc => h (by rw [hc])
          have htr : pyTruthyStr (some k) = true := by
            simp [pyTruthyStr, hk]
          cases entries with
          | nil => simp [KodiResponse.is_valid, claimValidC7, htr]
          | cons kv rest =>
            simp [KodiResponse.is_valid, claimValidC7, htr]

/-- C7 witness: at a concrete dict response carrying the expected key, the
amended equivalence applies with the non-empty expected string "episodes". -/
theorem C7_is_valid_matches_rule_witness :
    (some "episodes" : Option String) ≠ some "" ∧
      KodiResponse.is_valid ⟨4, "2.0", some (.obj [("episodes", .arr [])]), none⟩
          (some "episodes") =
        claimValidC7 ⟨4, "2.0", some (.obj [("episodes", .arr [])]), none⟩
          (some "episodes") := by
  refine ⟨by decide, ?_⟩
  exact C7_is_valid_matches_rule ⟨4, "2.0", some (.obj [("episodes", .arr [])]), none⟩
    (some "episodes") (by decide)

/-! ### C2/C10: host-pool scan failover and the returned new-episode list -/

lemma scanPass_allFail (k : Nat) (hosts : List HostModel)
    (h : ∀ x ∈ hosts, x.scanOk k = false) :
    scanPass false k hosts = (hosts.map (fun x => ScanEvent.attempt x.name false), false) := by
  induction hosts with
  | nil => rfl
  | cons x xs ih =>
    have hx := h x (List.mem_cons_self _ _)
    have hxs := ih (fun y hy => h y (List.mem_cons_of_mem _ hy))
    simp [scanPass, hx, hxs]

lemma scanRounds_allFail (hosts : List HostModel)
    (h : ∀ x ∈ hosts, ∀ k, x.scanOk k = false) :
    ∀ fuel k, scanRounds hosts false fuel k = none := by
  intro fuel
  induction fuel with
  | zero => intro k; rfl
  | succ n ih =>
    intro k
    have hp := scanPass_allFail k hosts (fun x hx => h x hx k)
    simp [scanRounds, hp, ih (k + 1)]

/-- C2: with hosts A, B failing and C succeeding, in that pool order, every
scan pass invokes A, then B, then C, and stops at C without touching any
further host; scan_directory and full_scan both return that single pass;
when a whole pass fails and the next pass succeeds, the full ordered pass
is retried after the 5 second sleep; and while every host keeps failing the
loop never returns (none for every fuel), for scan_directory and full_scan
alike. -/
theorem C2_failover_first_success (A B C : HostModel) (rest : List HostModel)
    (hA : ∀ k, A.scanOk k = false) (hB : ∀ k, B.scanOk k = false) :
    (∀ k fuel, C.scanOk k = true → 1 ≤ fuel →
      scanRounds (A :: B :: C :: rest) false fuel k =
        some [.attempt A.name false, .attempt B.name false, .attempt C.name true]) ∧
    (∀ fuel qB qA, 1 ≤ fuel → C.scanOk 0 = true →
      scan_directory (A :: B :: C :: rest) false fuel qB qA =
          some ([.attempt A.name false, .attempt B.name false, .attempt C.name true],
            newEpisodes qB qA) ∧
        full_scan (A :: B :: C :: rest) false fuel qB qA =
          some ([.attempt A.name false, .attempt B.name false, .attempt C.name true],
            newEpisodes qB qA)) ∧
    (∀ k fuel, C.scanOk k = false → C.scanOk (k + 1) = true →
      (∀ h ∈ rest, h.scanOk k = false) → 2 ≤ fuel →
      scanRounds (A :: B :: C :: rest) false fuel k =
        some ((ScanEvent.attempt A.name false :: .attempt B.name false ::
            .attempt C.name false :: rest.map (fun h => .attempt h.name false)) ++
          .sleep5 :: [.attempt A.name false, .attempt B.name false, .attempt C.name true])) ∧
    (∀ hosts : List HostModel, (∀ h ∈ hosts, ∀ k, h.scanOk k = false) →
      ∀ fuel k qB qA, scanRounds hosts false fuel k = none ∧
        scan_directory hosts false fuel qB qA = none ∧
        full_scan hosts false fuel qB qA = none) := by
  have hpass : ∀ k, C.scanOk k = true →
      scanPass false k (A :: B :: C :: rest) =
        ([.attempt A.name false, .attempt B.name false, .attempt C.name true], true) := by
    intro k hC
    simp [scanPass, hA k, hB k, hC]
  have hone : ∀ k fuel, C.scanOk k = true → 1 ≤ fuel →
      scanRounds (A :: B :: C :: rest) false fuel k =
        some [.attempt A.name false, .attempt B.name false, .attempt C.name true] := by
    intro k fuel hC hf
    cases fuel with
    | zero => omega
    | succ n => simp [scanRounds, hpass k hC]
  refine ⟨hone, ?_, ?_, ?_⟩
  · intro fuel qB qA hf hC
    constructor
    · simp [scan_directory, hone 0 fuel hC hf]
    · simp [full_scan, hone 0 fuel hC hf]
  · intro k fuel hCk hCk1 hrest hf
    cases fuel with
    | zero => omega
    | succ n =>
      have hfail : ∀ x ∈ A :: B :: C :: rest, x.scanOk k = false := by
        intro x hx
        simp only [List.mem_cons] at hx
        rcases hx with rfl | rfl | rfl | hx
        · exact hA k
        · exact hB k
        · exact hCk
        · exact hrest x hx
      have hp := scanPass_allFail k (A :: B :: C :: rest) hfail
      have hnext := hone (k + 1) n hCk1 (by omega)
      simp [scanRounds, hp, hnext]
  · intro hosts hfail fuel k qB qA
    have hr := scanRounds_allFail hosts hfail
    refine ⟨hr fuel k, ?_, ?_⟩
    · simp [scan_directory, hr fuel 0]
    · simp [full_scan, hr fuel 0]

/-- C2 witness: three concrete hosts, A and B always failing and C always
succeeding, produce exactly the pass A-fail, B-fail, C-success on the first
round. -/
theorem C2_failover_first_success_witness :
    scanRounds [⟨"A", false, fun _ => false⟩, ⟨"B", false, fun _ => false⟩,
        ⟨"C", false, fun _ => true⟩] false 1 0 =
      some [.attempt "A" false, .attempt "B" false, .attempt "C" true] :=
  (C2_failover_first_success ⟨"A", false, fun _ => false⟩ ⟨"B", false, fun _ => false⟩
    ⟨"C", false, fun _ => true⟩ [] (fun _ => rfl) (fun _ => rfl)).1 0 1 rfl (by omega)

/-- C10: whenever scan_directory or full_scan returns, the episode list it
returns is exactly the post-scan query filtered to records whose identity
tuple does not occur in the pre-scan query: membership in the result is
equivalent to membership in the after-query plus absence (under identity
equality) from the before-query, so an episode present before the scan is
never reported as new. -/
theorem C10_result_is_after_minus_before (hosts : List HostModel) (sa : Bool) (fuel : Nat)
    (qB qA : List EpisodeDetails) (es : List ScanEvent) (r : List EpisodeDetails)
    (h : scan_directory hosts sa fuel qB qA = some (es, r) ∨
      full_scan hosts sa fuel qB qA = some (es, r)) :
    r = qA.filter (fun x => !epMem x qB) ∧
      (∀ x : EpisodeDetails, x ∈ r ↔ x ∈ qA ∧ ∀ y ∈ qB, epEq y x = false) ∧
      (∀ y ∈ qB, ∀ x ∈ r, epEq y x = false) := by
  have hr : r = qA.filter (fun x => !epMem x qB) := by
    rcases h with h | h
    · unfold scan_directory at h
      cases hsr : scanRounds hosts sa fuel 0 with
      | none => rw [hsr] at h; exact absurd h (by simp)
      | some es2 =>
        rw [hsr] at h
        simp only [Option.some.injEq, Prod.mk.injEq] at h
        exact h.2.symm
    · unfold full_scan at h
      cases hsr : scanRounds hosts sa fuel 0 with
      | none => rw [hsr] at h; exact absurd h (by simp)
      | some es2 =>
        rw [hsr] at h
        simp only [Option.some.injEq, Prod.mk.injEq] at h
        exact h.2.symm
  have hmem : ∀ x : EpisodeDetails, x ∈ r ↔ x ∈ qA ∧ ∀ y ∈ qB, epEq y x = false := by
    intro x
    rw [hr, List.mem_filter]
    constructor
    · rintro ⟨hxa, hx⟩
      refine ⟨hxa, ?_⟩
      intro y hy
      simp only [Bool.not_eq_true', epMem, List.any_eq_false] at hx
      exact Bool.not_eq_true _ ▸ hx y hy
    · rintro ⟨hxa, hx⟩
      refine ⟨hxa, ?_⟩
      simp only [Bool.not_eq_true', epMem, List.any_eq_false]
      intro y hy
      simp [hx y hy]
  refine ⟨hr, hmem, ?_⟩
  intro y hy x hx
  exact ((hmem x).mp hx).2 y hy

/-- C10 witness: a before-query holding one record, an after-query holding
the same identity under a new numeric id plus a genuinely new episode: only
the new episode is returned, and it matches nothing in the before-query. -/
theorem C10_result_is_after_minus_before_witness :
    scan_directory [⟨"C", false, fun _ => true⟩] false 1
        [⟨1, 7, "/tv/B/S01E02.mkv", "B", "Two", 1, 2, ⟨none, none, none, 0, 0⟩⟩]
        [⟨42, 7, "/tv/B/S01E02.v2.mkv", "B", "Two v2", 1, 2, ⟨none, none, none, 0, 0⟩⟩,
         ⟨43, 7, "/tv/B/S01E03.mkv", "B", "Three", 1, 3, ⟨none, none, none, 0, 0⟩⟩] =
      some ([.attempt "C" true],
        [⟨43, 7, "/tv/B/S01E03.mkv", "B", "Three", 1, 3, ⟨none, none, none, 0, 0⟩⟩]) ∧
    epEq ⟨1, 7, "/tv/B/S01E02.mkv", "B", "Two", 1, 2, ⟨none, none, none, 0, 0⟩⟩
      ⟨43, 7, "/tv/B/S01E03.mkv", "B", "Three", 1, 3, ⟨none, none, none, 0, 0⟩⟩ = false :=
  ⟨rfl,
    (C10_result_is_after_minus_before [⟨"C", false, fun _ => true⟩] false 1
      [⟨1, 7, "/tv/B/S01E02.mkv", "B", "Two", 1, 2, ⟨none, none, none, 0, 0⟩⟩]
      [⟨42, 7, "/tv/B/S01E02.v2.mkv", "B", "Two v2", 1, 2, ⟨none, none, none, 0, 0⟩⟩,
       ⟨43, 7, "/tv/B/S01E03.mkv", "B", "Three", 1, 3, ⟨none, none, none, 0, 0⟩⟩]
      [.attempt "C" true]
      [⟨43, 7, "/tv/B/S01E03.mkv", "B", "Three", 1, 3, ⟨none, none, none, 0, 0⟩⟩]
      (Or.inl rfl)).2.2
      ⟨1, 7, "/tv/B/S01E02.mkv", "B", "Two", 1, 2, ⟨none, none, none, 0, 0⟩⟩ (by simp)
      ⟨43, 7, "/tv/B/S01E03.mkv", "B", "Three", 1, 3, ⟨none, none, none, 0, 0⟩⟩ (by simp)⟩

/-! ### C3: playback interruption round trip -/

lemma epEq_self (a : EpisodeDetails) : epEq a a = true := by
  simp [epEq]

lemma playerStops_nomatch (episode : EpisodeDetails) (h : PlayHost)
    (ps : List ActivePlayer)
    (hp : ∀ p ∈ ps, ¬(pyLower p.item.type = "episode" ∧ p.item.item_id = episode.episode_id)) :
    playerStops episode h ps = ([], []) := by
  induction ps with
  | nil => rfl
  | cons p rest ih =>
    have hrest := ih (fun q hq => hp q (List.mem_cons_of_mem _ hq))
    have hp0 := hp p (List.mem_cons_self _ _)
    by_cases hty : pyLower p.item.type = "episode"
    · have hid : p.item.item_id ≠ episode.episode_id := fun hc => hp0 ⟨hty, hc⟩
      simp [playerStops, hty, hid, hrest]
    · simp [playerStops, hty, hrest]

/-- C3: an episode playing on host h2 (and on no other host of the pool):
stop_playback stops that player, persists exactly one record carrying the
position and paused state read from h2, and notifies h2; after a process
restart, start_playback consumes and deletes the persisted store and
reopens the player on the same host at the persisted position, re-applying
the persisted paused flag; a second start_playback call finds no store and
does nothing. -/
theorem C3_playback_roundtrip (h1 h2 : PlayHost) (p : ActivePlayer)
    (episode : EpisodeDetails) (reason : String) (q : Int)
    (hn : (h2.name == h1.name) = false)
    (hp1 : ∀ x ∈ h1.players,
      ¬(pyLower x.item.type = "episode" ∧ x.item.item_id = episode.episode_id))
    (h2p : h2.players = [p])
    (hty : pyLower p.item.type = "episode")
    (hid : p.item.item_id = episode.episode_id)
    (hstart : h2.startEp episode.episode_id (h2.percentOf p.player_id) = some q) :
    stop_playback [h1, h2] none episode reason true =
        (some [⟨episode, h2.name, h2.percentOf p.player_id, h2.pausedOf p.player_id⟩],
          [.stopPlayer h2.name p.player_id,
           .serializeRecords
             [⟨episode, h2.name, h2.percentOf p.player_id, h2.pausedOf p.player_id⟩],
           .sleep2,
           .notifyForced h2.name "Sonarr - Stopped Playback" reason]) ∧
      start_playback [h1, h2]
          (some [⟨episode, h2.name, h2.percentOf p.player_id, h2.pausedOf p.player_id⟩])
          episode =
        (none, .startEpisode h2.name episode.episode_id (h2.percentOf p.player_id) ::
          (if h2.pausedOf p.player_id then [.pausePlayer h2.name q] else [])) ∧
      start_playback [h1, h2] none episode = (none, []) := by
  have hstops1 := playerStops_nomatch episode h1 h1.players hp1
  have hstops2 : playerStops episode h2 h2.players =
      ([⟨episode, h2.name, h2.percentOf p.player_id, h2.pausedOf p.player_id⟩],
        [.stopPlayer h2.name p.player_id]) := by
    rw [h2p]
    simp [playerStops, hty, hid]
  refine ⟨?_, ?_, rfl⟩
  · have hcollect : collectStops episode [h1, h2] =
        ([⟨episode, h2.name, h2.percentOf p.player_id, h2.pausedOf p.player_id⟩],
          [.stopPlayer h2.name p.player_id]) := by
      simp [collectStops, hstops1, hstops2]
    have hnote : stopNotifications reason
        [⟨episode, h2.name, h2.percentOf p.player_id, h2.pausedOf p.player_id⟩] [h1, h2] =
        [.notifyForced h2.name "Sonarr - Stopped Playback" reason] := by
      simp [stopNotifications, hn]
    simp [stop_playback, hcollect, hnote]
  · have hskip1 : startOnHost episode h1
        [⟨episode, h2.name, h2.percentOf p.player_id, h2.pausedOf p.player_id⟩] = [] := by
      have hne : h2.name ≠ h1.name := beq_eq_false_iff_ne.mp hn
      simp [startOnHost, hne]
    have hgo2 : startOnHost episode h2
        [⟨episode, h2.name, h2.percentOf p.player_id, h2.pausedOf p.player_id⟩] =
        .startEpisode h2.name episode.episode_id (h2.percentOf p.player_id) ::
          (if h2.pausedOf p.player_id then [.pausePlayer h2.name q] else []) := by
      simp [startOnHost, epEq_self, hstart]
    simp [start_playback, startMatches, hskip1, hgo2]

/-- C3 witness: a two-host pool with the episode playing paused on the
second host at 42 percent; the round trip stops, persists, restarts at 42
percent, re-pauses, and finds nothing on a second restart attempt. -/
theorem C3_playback_roundtrip_witness :
    stop_playback
        [⟨"livingroom", [], fun _ => false, fun _ => 0, fun _ _ => none⟩,
         ⟨"bedroom", [⟨3, ⟨55, "A 1x04", "episode"⟩⟩], fun _ => true, fun _ => 42,
           fun _ _ => some 9⟩] none
        ⟨55, 7, "/tv/A/S01E04.mkv", "A", "Four", 1, 4, ⟨none, none, none, 0, 0⟩⟩
        "Processing Upgrade. Please Wait..." true =
      (some [⟨⟨55, 7, "/tv/A/S01E04.mkv", "A", "Four", 1, 4, ⟨none, none, none, 0, 0⟩⟩,
          "bedroom", 42, true⟩],
        [.stopPlayer "bedroom" 3,
         .serializeRecords
           [⟨⟨55, 7, "/tv/A/S01E04.mkv", "A", "Four", 1, 4, ⟨none, none, none, 0, 0⟩⟩,
             "bedroom", 42, true⟩],
         .sleep2,
         .notifyForced "bedroom" "Sonarr - Stopped Playback"
           "Processing Upgrade. Please Wait..."]) ∧
      start_playback
          [⟨"livingroom", [], fun _ => false, fun _ => 0, fun _ _ => none⟩,
           ⟨"bedroom", [⟨3, ⟨55, "A 1x04", "episode"⟩⟩], fun _ => true, fun _ => 42,
             fun _ _ => some 9⟩]
          (some [⟨⟨55, 7, "/tv/A/S01E04.mkv", "A", "Four", 1, 4, ⟨none, none, none, 0, 0⟩⟩,
            "bedroom", 42, true⟩])
          ⟨55, 7, "/tv/A/S01E04.mkv", "A", "Four", 1, 4, ⟨none, none, none, 0, 0⟩⟩ =
        (none, [.startEpisode "bedroom" 55 42, .pausePlayer "bedroom" 9]) ∧
      start_playback
          [⟨"livingroom", [], fun _ => false, fun _ => 0, fun _ _ => none⟩,
           ⟨"bedroom", [⟨3, ⟨55, "A 1x04", "episode"⟩⟩], fun _ => true, fun _ => 42,
             fun _ _ => some 9⟩] none
          ⟨55, 7, "/tv/A/S01E04.mkv", "A", "Four", 1, 4, ⟨none, none, none, 0, 0⟩⟩ =
        (none, []) := by
  have h := C3_playback_roundtrip
    ⟨"livingroom", [], fun _ => false, fun _ => 0, fun _ _ => none⟩
    ⟨"bedroom", [⟨3, ⟨55, "A 1x04", "episode"⟩⟩], fun _ => true, fun _ => 42,
      fun _ _ => some 9⟩
    ⟨3, ⟨55, "A 1x04", "episode"⟩⟩
    ⟨55, 7, "/tv/A/S01E04.mkv", "A", "Four", 1, 4, ⟨none, none, none, 0, 0⟩⟩
    "Processing Upgrade. Please Wait..." 9
    (by decide) (by simp) rfl (by decide) rfl rfl
  exact ⟨h.1, h.2.1, h.2.2⟩

/-! ### C8: pool construction order -/

/-- C8 counterexample: two enabled, live endpoints configured with
priorities 2 then 1 produce a pool in that same configuration order, which
is not sorted by ascending priority as the claim requires. -/
theorem C8_counterexample :
    buildHosts [⟨"x", true, true, 2⟩, ⟨"y", true, true, 1⟩] = [⟨"x", 2⟩, ⟨"y", 1⟩] ∧
      ¬ List.Sorted (fun a b : PoolHost => a.priority ≤ b.priority)
        (buildHosts [⟨"x", true, true, 2⟩, ⟨"y", true, true, 1⟩]) := by
  refine ⟨rfl, ?_⟩
  intro hs
  rw [show buildHosts [⟨"x", true, true, 2⟩, ⟨"y", true, true, 1⟩] =
      [(⟨"x", 2⟩ : PoolHost), ⟨"y", 1⟩] from rfl, List.sorted_cons] at hs
  have h21 := hs.1 ⟨"y", 1⟩ (by simp)
  exact absurd h21 (by decide)

/-- C8 (amended): the constructed pool is exactly the enabled endpoints
that pass the liveness probe, kept in configuration order; the priority
field does not influence the order. -/
theorem C8_pool_is_enabled_live_in_config_order (cfgs : List HostCfg) :
    buildHosts cfgs = (cfgs.filter (fun c => c.enabled && c.alive)).map mkPoolHost := by
  induction cfgs with
  | nil => rfl
  | cons c rest ih =>
    by_cases he : c.enabled
    · by_cases ha : c.alive
      · simp [buildHosts, he, ha, ih, List.filter_cons]
      · simp [buildHosts, he, ha, ih, List.filter_cons]
    · simp [buildHosts, he, ih, List.filter_cons]

/-! ### C9: startup with zero reachable hosts -/

lemma collect_hosts_nil (cfgs : List HostCfg)
    (h : ∀ c ∈ cfgs, c.enabled = true → c.alive = false) :
    collect_hosts cfgs = [] := by
  induction cfgs with
  | nil => rfl
  | cons c rest ih =>
    have hrest := ih (fun x hx => h x (List.mem_cons_of_mem _ hx))
    by_cases he : c.enabled
    · have ha := h c (List.mem_cons_self _ _) he
      simp [collect_hosts, he, ha, hrest]
    · simp [collect_hosts, he, hrest]

/-- C9 counterexample: one enabled but unreachable host; main logs the
critical message and dispatches no handler, but exits with status 0, not
the non-zero status the claim requires. -/
theorem C9_counterexample :
    (mainEntry [⟨"livingroom", true, false, 0⟩] .on_test).fatalLogged = true ∧
      (mainEntry [⟨"livingroom", true, false, 0⟩] .on_test).dispatched = none ∧
      ¬ (mainEntry [⟨"livingroom", true, false, 0⟩] .on_test).exitCode ≠ 0 := by
  exact ⟨rfl, rfl, fun hc => hc rfl⟩

/-- C9 (amended): whenever no configured host is both enabled and
reachable, the invocation logs a fatal-level message and dispatches no
event handler, but finishes with exit status 0 (main returns normally
instead of calling sys.exit). -/
theorem C9_no_live_hosts_aborts_quietly (cfgs : List HostCfg) (e : SonarrEvent)
    (h : ∀ c ∈ cfgs, c.enabled = true → c.alive = false) :
    mainEntry cfgs e = ⟨true, 0, none⟩ := by
  have hc := collect_hosts_nil cfgs h
  simp [mainEntry, hc]

/-- C9 witness: the amended statement at a concrete single unreachable
host and a test event. -/
theorem C9_no_live_hosts_aborts_quietly_witness :
    (∀ c ∈ [(⟨"livingroom", true, false, 0⟩ : HostCfg)], c.enabled = true → c.alive = false) ∧
      mainEntry [⟨"livingroom", true, false, 0⟩] .on_grab = ⟨true, 0, none⟩ := by
  refine ⟨by decide, ?_⟩
  exact C9_no_live_hosts_aborts_quietly [⟨"livingroom", true, false, 0⟩] .on_grab (by decide)

end SonarrKodi
